import Mathlib

/-!
Verification development for the order-fulfillment and secure-delivery
subsystem of the FichasMalharia catalog application (src/app.py).

The embedding is shallow: every SQLAlchemy model becomes a Lean structure,
the database session becomes an explicit `DB` value threaded through the
operations, wall-clock time (`datetime.utcnow()`) becomes an explicit
integer parameter `now`, and the external collaborators (Mercado Pago,
object storage, SMTP) become function parameters or configuration flags.
Python `int` values are embedded as `Int` (timestamps, ids, prices) or as
`Nat` for the two non-negative use counters.  Fallible external calls are
`Except Unit` values; an uncaught Python exception inside a request handler
is the distinguished response `Resp.crash` (Flask answers HTTP 500 for it).
-/

namespace FM

/-- Catalog item: the `Ficha` model, src/app.py lines 37-51.  Only the
fields the fulfillment subsystem reads are embedded. -/
structure Ficha where
  id : Int
  titulo : String
  preco_centavos : Int
  file_key : Option String
  ativa : Bool
  deriving DecidableEq, Repr

/-- Order: the `Pedido` model, src/app.py lines 54-65. -/
structure Pedido where
  id : Int
  email : String
  status : String
  total_centavos : Int
  mp_preference_id : Option String
  mp_payment_id : Option String
  deriving DecidableEq, Repr

/-- Order line item snapshot: the `PedidoItem` model, src/app.py lines 68-75. -/
structure PedidoItem where
  pedido_id : Int
  ficha_id : Int
  titulo_snapshot : String
  preco_centavos_snapshot : Int
  deriving DecidableEq, Repr

/-- Per-item download capability: the `DownloadToken` model, src/app.py
lines 78-88.  The two counters are non-negative, so they are `Nat`. -/
structure DownloadToken where
  token : String
  pedido_id : Int
  ficha_id : Int
  expira_em : Int
  downloads : Nat
  max_downloads : Nat
  deriving DecidableEq, Repr

/-- Whole-order access capability: the `PedidoAccessToken` model,
src/app.py lines 91-102. -/
structure PedidoAccessToken where
  token : String
  pedido_id : Int
  expira_em : Int
  deriving DecidableEq, Repr

/-- The durable store: one list per table, plus a deterministic supply for
`secrets.token_urlsafe` values and for autoincrement order ids. -/
structure DB where
  fichas : List Ficha
  pedidos : List Pedido
  itens : List PedidoItem
  dtokens : List DownloadToken
  ptokens : List PedidoAccessToken
  tokenCounter : Nat
  nextPedidoId : Int
  deriving DecidableEq, Repr

/-- Environment configuration read by the handlers: `MP_ACCESS_TOKEN`
presence, the `S3_*` quadruple presence (`storage_enabled`, lines 258-264),
`DOWNLOAD_MAX`, `DOWNLOAD_TOKEN_DAYS` and `PURCHASE_PAGE_DAYS` (the two
day counts are kept in the same abstract time unit as `expira_em`). -/
structure Config where
  mp_enabled : Bool
  storage_enabled : Bool
  download_max : Nat
  download_token_days : Int
  purchase_page_days : Int
  deriving DecidableEq, Repr

/-- Python `str.isspace` characters relevant to `str.strip()`. -/
def isSpaceChar (c : Char) : Bool :=
  c = ' ' || c = '\t' || c = '\n' || c = '\r' || c = '\x0b' || c = '\x0c'

def lowerChar (c : Char) : Char :=
  if 'A' ≤ c ∧ c ≤ 'Z' then Char.ofNat (c.toNat + 32) else c

/-- Python `s.strip().lower()` as used on the checkout email field. -/
def pyStripLower (s : String) : String :=
  ⟨(((s.data.dropWhile isSpaceChar).reverse.dropWhile isSpaceChar).reverse).map lowerChar⟩

/-- Python `"@" in s`. -/
def hasAtSign (s : String) : Bool := s.data.contains '@'

def digitVal (c : Char) : Option Nat :=
  if '0' ≤ c ∧ c ≤ '9' then some (c.toNat - 48) else none

def digitsVal : List Char → Option Nat
  | [] => none
  | [c] => digitVal c
  | c :: rest =>
    match digitVal c, digitsVal rest with
    | some d, some n => some (d * 10 ^ rest.length + n)
    | _, _ => none

/-- Python `int(s)` on a decimal string: `some` the value, `none` when the
call raises `ValueError`. -/
def parseIntStr (s : String) : Option Int :=
  match s.data with
  | '-' :: rest => (digitsVal rest).map (fun n => -(n : Int))
  | '+' :: rest => (digitsVal rest).map (fun n => (n : Int))
  | l => (digitsVal l).map (fun n => (n : Int))

/-- Python truthiness of an optional string: `None` and `""` are falsy.
Used wherever the source writes `x or y` / `if not x` on strings. -/
def truthyStr : Option String → Option String
  | none => none
  | some s => if s = "" then none else some s

def findFicha (db : DB) (i : Int) : Option Ficha :=
  db.fichas.find? (fun f => f.id == i)

def findPedido (db : DB) (i : Int) : Option Pedido :=
  db.pedidos.find? (fun p => p.id == i)

def findDToken (db : DB) (s : String) : Option DownloadToken :=
  db.dtokens.find? (fun t => t.token == s)

/-- Deterministic stand-in for `secrets.token_urlsafe(32)`. -/
def freshToken (db : DB) : String := "tk" ++ toString db.tokenCounter

/-- Models `.order_by(expira_em.desc()).first()`: the element with the
greatest key wins; on a tie the earlier row wins. -/
def latestByKey {α : Type} (key : α → Int) : List α → Option α
  | [] => none
  | x :: xs =>
    match latestByKey key xs with
    | none => some x
    | some y => if key y > key x then some y else some x

def dtokensFor (db : DB) (pid fid : Int) : List DownloadToken :=
  db.dtokens.filter (fun t => t.pedido_id == pid && t.ficha_id == fid)

def ptokensFor (db : DB) (pid : Int) : List PedidoAccessToken :=
  db.ptokens.filter (fun t => t.pedido_id == pid)

/-- The mint branch of `get_or_create_pedido_access_token`
(src/app.py lines 458-468). -/
def mintPedidoAccessToken (cfg : Config) (now : Int) (db : DB) (pid : Int) :
    PedidoAccessToken × DB :=
  let t : PedidoAccessToken := ⟨freshToken db, pid, now + cfg.purchase_page_days⟩
  (t, { db with ptokens := db.ptokens ++ [t], tokenCounter := db.tokenCounter + 1 })

/-- `get_or_create_pedido_access_token`, src/app.py lines 446-468. -/
def get_or_create_pedido_access_token (cfg : Config) (now : Int) (db : DB)
    (pid : Int) : PedidoAccessToken × DB :=
  match latestByKey (fun t => t.expira_em) (ptokensFor db pid) with
  | some existing =>
    if existing.expira_em > now then (existing, db)
    else mintPedidoAccessToken cfg now db pid
  | none => mintPedidoAccessToken cfg now db pid

/-- The mint branch of `get_or_create_download_token`
(src/app.py lines 485-496). -/
def mintDownloadToken (cfg : Config) (now : Int) (db : DB) (pid fid : Int) :
    DownloadToken × DB :=
  let t : DownloadToken :=
    ⟨freshToken db, pid, fid, now + cfg.download_token_days, 0, cfg.download_max⟩
  (t, { db with dtokens := db.dtokens ++ [t], tokenCounter := db.tokenCounter + 1 })

/-- `get_or_create_download_token`, src/app.py lines 470-496. -/
def get_or_create_download_token (cfg : Config) (now : Int) (db : DB)
    (pid fid : Int) : DownloadToken × DB :=
  match latestByKey (fun t => t.expira_em) (dtokensFor db pid fid) with
  | some existing =>
    if existing.expira_em > now ∧ existing.downloads < existing.max_downloads then
      (existing, db)
    else mintDownloadToken cfg now db pid fid
  | none => mintDownloadToken cfg now db pid fid

/-- An HTTP response of the subsystem.  `crash` is an uncaught Python
exception, which Flask turns into HTTP 500. -/
inductive Resp where
  | ok : String → Resp
  | redirect : String → Resp
  | err : Nat → Resp
  | crash : Resp
  deriving DecidableEq, Repr

def respSuccess : Resp → Bool
  | .redirect _ => true
  | _ => false

/-- `presigned_download_url`, src/app.py lines 283-290, abstracted to a
deterministic signed-URL constructor. -/
def presigned_download_url (file_key : String) : String := "signed:" ++ file_key

/-- Outcome of the validation phase of the `download` handler. -/
inductive DlCheck where
  | fail : Resp → DlCheck
  | pass : String → DlCheck
  deriving DecidableEq, Repr

/-- Phase 1 of the `download` handler (src/app.py line 829): load the token
row into an ORM instance. -/
def dl_load (db : DB) (s : String) : Option DownloadToken := findDToken db s

/-- Phase 2 of the `download` handler (src/app.py lines 831-845): the
validity checks, reading the loaded instance `t` and the store.  On pass it
carries the truthy `file_key` of the catalog item. -/
def dl_check (now : Int) (db : DB) (t : DownloadToken) : DlCheck :=
  if now > t.expira_em then .fail (.err 410)
  else if t.downloads ≥ t.max_downloads then .fail (.err 429)
  else
    match findPedido db t.pedido_id with
    | none => .fail (.err 403)
    | some p =>
      if p.status ≠ "paid" then .fail (.err 403)
      else
        match findFicha db t.ficha_id with
        | none => .fail (.err 404)
        | some f =>
          if f.ativa = false then .fail (.err 404)
          else
            match truthyStr f.file_key with
            | none => .fail (.err 404)
            | some k => .pass k

/-- Phase 3 of the `download` handler (src/app.py lines 847-848):
`t.downloads += 1; db.session.commit()`.  The written value is the loaded
instance's counter plus one, not the store's current counter plus one. -/
def dl_write (db : DB) (t : DownloadToken) : DB :=
  { db with dtokens := db.dtokens.map (fun u =>
      if u.token == t.token then { u with downloads := t.downloads + 1 } else u) }

/-- The `download` endpoint, src/app.py lines 827-854: the sequential
composition of the three phases, followed by the storage check and the
signed-URL redirect. -/
def download (cfg : Config) (now : Int) (db : DB) (s : String) : Resp × DB :=
  match dl_load db s with
  | none => (.err 404, db)
  | some t =>
    match dl_check now db t with
    | .fail r => (r, db)
    | .pass k =>
      let db1 := dl_write db t
      if cfg.storage_enabled then (.redirect (presigned_download_url k), db1)
      else (.err 500, db1)

/-- `n` sequential redemptions of the same token string, collecting the
responses in order. -/
def downloadN (cfg : Config) (now : Int) (s : String) : Nat → DB → List Resp × DB
  | 0, db => ([], db)
  | k + 1, db =>
    let rdb := download cfg now db s
    let rest := downloadN cfg now s k rdb.2
    (rdb.1 :: rest.1, rest.2)

/-- Two workers redeeming the same token concurrently, interleaved at the
commit boundary: both load the row, both run the validity checks against
the pre-commit store, then both commit their increments.  Every step is the
corresponding phase of `download`; only the schedule differs from the
sequential composition.  This interleaving is possible because the handler
performs the ceiling check and the counter write as a separate read and a
separate write with no locking or atomic update. -/
def download_pair_racy (cfg : Config) (now : Int) (db : DB) (s : String) :
    Resp × Resp × DB :=
  match dl_load db s with
  | none => (.err 404, .err 404, db)
  | some t =>
    match dl_check now db t with
    | .fail r => (r, r, db)
    | .pass k =>
      let dbA := dl_write db t
      let dbB := dl_write dbA t
      ((if cfg.storage_enabled then Resp.redirect (presigned_download_url k)
        else Resp.err 500),
       (if cfg.storage_enabled then Resp.redirect (presigned_download_url k)
        else Resp.err 500),
       dbB)

/-- The authoritative payment record returned by the provider's
payment-lookup endpoint (`mp_fetch_payment`, src/app.py lines 402-410):
the two fields the webhook reads. -/
structure MPPayment where
  status : Option String
  external_reference : Option String
  deriving DecidableEq, Repr

/-- An inbound webhook delivery: the two query parameters and the two JSON
body fields the handler consults (src/app.py lines 671-676). -/
structure Notification where
  args_data_id : Option String
  args_id : Option String
  body_data_id : Option String
  body_id : Option String
  deriving DecidableEq, Repr

/-- Payment-id extraction, src/app.py lines 673-676: first truthy value
among query `data.id`, query `id`, body `data.id`, body `id`. -/
def extract_payment_id (n : Notification) : Option String :=
  match truthyStr n.args_data_id with
  | some s => some s
  | none =>
    match truthyStr n.args_id with
    | some s => some s
    | none =>
      match truthyStr n.body_data_id with
      | some s => some s
      | none => truthyStr n.body_id

/-- The store together with two observation counters (not program state):
how many times the webhook invoked the fulfillment dispatcher
`gerar_links_e_enviar_email`, and how many messages were handed to
`send_email`. -/
structure Sys where
  db : DB
  fulfillCalls : Nat
  emailsSent : Nat
  deriving DecidableEq, Repr

/-- The paid transition performed by the webhook (src/app.py lines
700-703): `pedido.status = "paid"; pedido.mp_payment_id = str(payment_id);
db.session.commit()`. -/
def setPaid (db : DB) (oid : Int) (payment_id : String) : DB :=
  { db with pedidos := db.pedidos.map (fun p =>
      if p.id == oid then { p with status := "paid", mp_payment_id := some payment_id }
      else p) }

def itensFor (db : DB) (pid : Int) : List PedidoItem :=
  db.itens.filter (fun it => it.pedido_id == pid)

/-- The per-item loop of `gerar_links_e_enviar_email` (src/app.py lines
726-732): skip items whose catalog row is missing or has a falsy
`file_key`, otherwise issue-or-reuse a download token. -/
def mintItemTokens (cfg : Config) (now : Int) (pid : Int) :
    List PedidoItem → DB → DB
  | [], db => db
  | it :: rest, db =>
    match findFicha db it.ficha_id with
    | none => mintItemTokens cfg now pid rest db
    | some f =>
      match truthyStr f.file_key with
      | none => mintItemTokens cfg now pid rest db
      | some _ =>
        mintItemTokens cfg now pid rest (get_or_create_download_token cfg now db pid f.id).2

/-- `gerar_links_e_enviar_email`, src/app.py lines 712-770.  Returns the
updated store and the number of messages handed to the mail collaborator.
The early returns (order missing, order not paid, no line items) hand over
nothing; otherwise the order-access token and the per-item download tokens
are issued-or-reused and one message is sent. -/
def gerar_links_e_enviar_email (cfg : Config) (now : Int) (db : DB)
    (pedido_id : Int) : DB × Nat :=
  match findPedido db pedido_id with
  | none => (db, 0)
  | some pedido =>
    if pedido.status ≠ "paid" then (db, 0)
    else if (itensFor db pedido_id).isEmpty then (db, 0)
    else
      let db1 := (get_or_create_pedido_access_token cfg now db pedido_id).2
      let db2 := mintItemTokens cfg now pedido_id (itensFor db pedido_id) db1
      (db2, 1)

/-- The webhook endpoint `POST /mp/webhook`, src/app.py lines 669-710.
`fetch` is the provider's payment-lookup call; `.error` is a raised
requests exception (caught, acknowledged with 200).  `int(external_reference)`
is `parseIntStr`; a non-numeric reference raises `ValueError`, which no
handler catches, so that path is `Resp.crash`. -/
def mp_webhook (cfg : Config) (now : Int)
    (fetch : String → Except Unit MPPayment) (st : Sys) (n : Notification) :
    Resp × Sys :=
  match extract_payment_id n with
  | none => (.ok "ok", st)
  | some payment_id =>
    match fetch payment_id with
    | .error _ => (.ok "ok", st)
    | .ok pay =>
      match truthyStr pay.external_reference with
      | none => (.ok "ok", st)
      | some ext =>
        match parseIntStr ext with
        | none => (.crash, st)
        | some oid =>
          match findPedido st.db oid with
          | none => (.ok "ok", st)
          | some pedido =>
            if pedido.status = "paid" then (.ok "ok", st)
            else if pay.status = some "approved" then
              let db1 := setPaid st.db oid payment_id
              let out := gerar_links_e_enviar_email cfg now db1 oid
              (.ok "ok", ⟨out.1, st.fulfillCalls + 1, st.emailsSent + out.2⟩)
            else (.ok "ok", st)

/-- State part of one webhook delivery. -/
def webhookState (cfg : Config) (now : Int)
    (fetch : String → Except Unit MPPayment) (n : Notification) (st : Sys) : Sys :=
  (mp_webhook cfg now fetch st n).2

/-- The provider's preference-creation response: the two fields checkout
reads (src/app.py lines 639-645). -/
structure MPPreference where
  id : Option String
  init_point : Option String
  deriving DecidableEq, Repr

/-- Line-item snapshot taken at checkout (src/app.py lines 627-633). -/
def snapshotItem (pid : Int) (f : Ficha) : PedidoItem :=
  ⟨pid, f.id, f.titulo, f.preco_centavos⟩

/-- The checkout query `Ficha.query.filter(Ficha.id.in_(ids),
Ficha.ativa.is_(True))` (src/app.py line 615). -/
def activeCartFichas (db : DB) (cart : List Int) : List Ficha :=
  db.fichas.filter (fun f => cart.contains f.id && f.ativa)

/-- The `POST /checkout` endpoint, src/app.py lines 600-649.  `pref` is the
outcome of the provider preference-creation call; `.error` is a raised
requests exception after the order was committed, so that path is
`Resp.crash` with the order persisted. -/
def checkout (cfg : Config) (db : DB) (emailForm : String) (cart : List Int)
    (pref : Except Unit MPPreference) : Resp × DB :=
  if cfg.mp_enabled = false then (.err 500, db)
  else
    let email := pyStripLower emailForm
    if hasAtSign email = false then (.redirect "cart", db)
    else if cart.isEmpty then (.redirect "busca", db)
    else
      let fichas := activeCartFichas db cart
      if fichas.isEmpty then (.redirect "busca", db)
      else
        let total := (fichas.map (fun f => f.preco_centavos)).sum
        let pid := db.nextPedidoId
        let pedido : Pedido := ⟨pid, email, "pending", total, none, none⟩
        let db1 : DB :=
          { db with pedidos := db.pedidos ++ [pedido],
                    itens := db.itens ++ fichas.map (snapshotItem pid),
                    nextPedidoId := pid + 1 }
        match pref with
        | .error _ => (.crash, db1)
        | .ok pr =>
          let db2 : DB :=
            { db1 with pedidos := db1.pedidos.map (fun p =>
                if p.id == pid then { p with mp_preference_id := pr.id } else p) }
          match truthyStr pr.init_point with
          | none => (.err 500, db2)
          | some u => (.redirect u, db2)

/-- A later catalog price edit, performed outside the subsystem: rewrites
one catalog item's price and touches nothing else. -/
def updateFichaPreco (db : DB) (fid preco : Int) : DB :=
  { db with fichas := db.fichas.map (fun f =>
      if f.id == fid then { f with preco_centavos := preco } else f) }

/-- The order total displayed by the `minha_compra` page, src/app.py lines
792-798: the sum of the line items' snapshotted prices. -/
def minha_compra_total (db : DB) (pid : Int) : Int :=
  ((itensFor db pid).map (fun it => it.preco_centavos_snapshot)).sum

/-! Concrete fixtures used by witnesses and counterexamples. -/

def cfgS : Config := ⟨true, true, 5, 30, 90⟩

def cfgNoStorage : Config := ⟨true, false, 5, 30, 90⟩

def cfgNoMp : Config := ⟨false, true, 5, 30, 90⟩

def fichaA : Ficha := ⟨1, "Meia Malha", 2990, some "fichas/a.pdf", true⟩

def fichaB : Ficha := ⟨2, "Piquet", 3990, some "fichas/b.pdf", true⟩

def pedidoPend : Pedido := ⟨7, "x@y.z", "pending", 2990, none, none⟩

def pedidoPaid : Pedido := ⟨7, "x@y.z", "paid", 2990, none, none⟩

def itemA : PedidoItem := ⟨7, 1, "Meia Malha", 2990⟩

def dbPend : DB := ⟨[fichaA], [pedidoPend], [itemA], [], [], 0, 8⟩

def notif1 : Notification := ⟨some "pay1", none, none, none⟩

def st1 : Sys := ⟨dbPend, 0, 0⟩

/-- Provider record: approved payment for order 7. -/
def fetchApproved7 : String → Except Unit MPPayment :=
  fun _ => .ok ⟨some "approved", some "7"⟩

/-- Provider record whose `external_reference` is not a decimal integer. -/
def fetchRefAbc : String → Except Unit MPPayment :=
  fun _ => .ok ⟨some "approved", some "abc"⟩

def tokE : DownloadToken := ⟨"t0", 7, 1, 100, 0, 5⟩

def dbE : DB := ⟨[fichaA], [pedidoPaid], [itemA], [tokE], [], 0, 8⟩

def tokRace : DownloadToken := ⟨"r0", 7, 1, 100, 0, 1⟩

def dbRace : DB := ⟨[fichaA], [pedidoPaid], [itemA], [tokRace], [], 0, 8⟩

def dbShop : DB := ⟨[fichaA, fichaB], [], [], [], [], 0, 1⟩

def prefOk : Except Unit MPPreference := .ok ⟨some "pref1", some "mp-init"⟩

def ptok8 : PedidoAccessToken := ⟨"p0", 7, 100⟩

def db8 : DB := ⟨[fichaA], [pedidoPaid], [itemA], [tokE], [ptok8], 0, 8⟩

def stE : Sys := ⟨dbE, 0, 0⟩

/-! Helper lemmas. -/

theorem find?_map_pres {α : Type} (f : α → α) (p : α → Bool)
    (h : ∀ x, p (f x) = p x) :
    ∀ l : List α, (l.map f).find? p = (l.find? p).map f := by
  intro l
  induction l with
  | nil => rfl
  | cons a l ih =>
    rw [List.map_cons, List.find?_cons, List.find?_cons, h a]
    cases hpa : p a
    · exact ih
    · rfl

theorem map_eq_self_of {α : Type} {f : α → α} :
    ∀ {l : List α}, (∀ a ∈ l, f a = a) → l.map f = l := by
  intro l h
  induction l with
  | nil => rfl
  | cons a l ih =>
    rw [List.map_cons, h a (by simp), ih (fun x hx => h x (by simp [hx]))]

theorem gocd_pedidos (cfg : Config) (now : Int) (db : DB) (pid fid : Int) :
    ((get_or_create_download_token cfg now db pid fid).2).pedidos = db.pedidos := by
  unfold get_or_create_download_token
  split
  · split
    · rfl
    · rfl
  · rfl

theorem gocp_pedidos (cfg : Config) (now : Int) (db : DB) (pid : Int) :
    ((get_or_create_pedido_access_token cfg now db pid).2).pedidos = db.pedidos := by
  unfold get_or_create_pedido_access_token
  split
  · split
    · rfl
    · rfl
  · rfl

theorem mintItemTokens_pedidos (cfg : Config) (now : Int) (pid : Int) :
    ∀ (its : List PedidoItem) (db : DB),
      (mintItemTokens cfg now pid its db).pedidos = db.pedidos := by
  intro its
  induction its with
  | nil => intro db; rfl
  | cons it rest ih =>
    intro db
    unfold mintItemTokens
    split
    · exact ih db
    · split
      · exact ih db
      · exact (ih _).trans (gocd_pedidos _ _ _ _ _)

theorem gerar_pedidos (cfg : Config) (now : Int) (db : DB) (pid : Int) :
    ((gerar_links_e_enviar_email cfg now db pid).1).pedidos = db.pedidos := by
  unfold gerar_links_e_enviar_email
  split
  · rfl
  · split
    · rfl
    · split
      · rfl
      · exact (mintItemTokens_pedidos _ _ _ _ _).trans (gocp_pedidos _ _ _ _)

theorem findPedido_setPaid (db : DB) (oid : Int) (s : String) (i : Int) :
    findPedido (setPaid db oid s) i
      = (findPedido db i).map (fun p =>
          if p.id == oid then { p with status := "paid", mp_payment_id := some s }
          else p) := by
  unfold findPedido setPaid
  refine find?_map_pres _ _ (fun x => ?_) _
  by_cases hx : (x.id == oid) = true
  · simp [hx]
  · simp [hx]

theorem findDToken_dl_write_self (db : DB) (s : String) (t : DownloadToken)
    (hfind : findDToken db s = some t) :
    findDToken (dl_write db t) s = some { t with downloads := t.downloads + 1 } := by
  have h2 : db.dtokens.find? (fun u => u.token == s) = some t := hfind
  have hpres : ∀ x : DownloadToken,
      ((if x.token == t.token then { x with downloads := t.downloads + 1 } else x).token == s)
        = (x.token == s) := by
    intro x
    by_cases hx : (x.token == t.token) = true
    · simp [hx]
    · simp [hx]
  unfold findDToken dl_write
  rw [find?_map_pres _ _ hpres, h2]
  simp

theorem dl_check_pass_eq (now : Int) (db : DB) (t : DownloadToken) (p : Pedido)
    (f : Ficha) (k : String)
    (hexp : ¬ now > t.expira_em) (hcnt : t.downloads < t.max_downloads)
    (hped : findPedido db t.pedido_id = some p) (hpaid : p.status = "paid")
    (hfich : findFicha db t.ficha_id = some f) (hativa : f.ativa = true)
    (hkey : truthyStr f.file_key = some k) :
    dl_check now db t = .pass k := by
  have h2 : ¬ t.downloads ≥ t.max_downloads := by omega
  simp only [dl_check, hped, hfich, hkey]
  rw [if_neg hexp, if_neg h2, if_neg (by simp [hpaid]), if_neg (by simp [hativa])]

theorem dl_check_fail_expired (now : Int) (db : DB) (t : DownloadToken)
    (h : now > t.expira_em) : dl_check now db t = .fail (.err 410) := by
  unfold dl_check
  rw [if_pos h]

theorem dl_check_fail_exhausted (now : Int) (db : DB) (t : DownloadToken)
    (hexp : ¬ now > t.expira_em) (h : t.downloads ≥ t.max_downloads) :
    dl_check now db t = .fail (.err 429) := by
  unfold dl_check
  rw [if_neg hexp, if_pos h]

theorem dl_check_fail_unpaid (now : Int) (db : DB) (t : DownloadToken) (p : Pedido)
    (hexp : ¬ now > t.expira_em) (hcnt : ¬ t.downloads ≥ t.max_downloads)
    (hped : findPedido db t.pedido_id = some p) (h : p.status ≠ "paid") :
    dl_check now db t = .fail (.err 403) := by
  simp only [dl_check, hped]
  rw [if_neg hexp, if_neg hcnt, if_pos h]

theorem dl_check_fail_inactive (now : Int) (db : DB) (t : DownloadToken)
    (p : Pedido) (f : Ficha)
    (hexp : ¬ now > t.expira_em) (hcnt : ¬ t.downloads ≥ t.max_downloads)
    (hped : findPedido db t.pedido_id = some p) (hpaid : p.status = "paid")
    (hfich : findFicha db t.ficha_id = some f) (h : f.ativa = false) :
    dl_check now db t = .fail (.err 404) := by
  simp only [dl_check, hped, hfich]
  rw [if_neg hexp, if_neg hcnt, if_neg (by simp [hpaid]), if_pos h]

theorem dl_check_fail_nokey (now : Int) (db : DB) (t : DownloadToken)
    (p : Pedido) (f : Ficha)
    (hexp : ¬ now > t.expira_em) (hcnt : ¬ t.downloads ≥ t.max_downloads)
    (hped : findPedido db t.pedido_id = some p) (hpaid : p.status = "paid")
    (hfich : findFicha db t.ficha_id = some f) (hativa : f.ativa = true)
    (h : truthyStr f.file_key = none) :
    dl_check now db t = .fail (.err 404) := by
  simp only [dl_check, hped, hfich, h]
  rw [if_neg hexp, if_neg hcnt, if_neg (by simp [hpaid]), if_neg (by simp [hativa])]

theorem download_eq_none (cfg : Config) (now : Int) (db : DB) (s : String)
    (h : findDToken db s = none) : download cfg now db s = (.err 404, db) := by
  unfold download dl_load
  rw [h]

theorem download_eq_fail (cfg : Config) (now : Int) (db : DB) (s : String)
    (t : DownloadToken) (r : Resp) (hfind : findDToken db s = some t)
    (hcheck : dl_check now db t = .fail r) : download cfg now db s = (r, db) := by
  simp only [download, dl_load, hfind, hcheck]

theorem download_eq_pass (cfg : Config) (now : Int) (db : DB) (s : String)
    (t : DownloadToken) (k : String) (hfind : findDToken db s = some t)
    (hcheck : dl_check now db t = .pass k) :
    download cfg now db s
      = ((if cfg.storage_enabled then Resp.redirect (presigned_download_url k)
          else Resp.err 500), dl_write db t) := by
  simp only [download, dl_load, hfind, hcheck]
  cases hst : cfg.storage_enabled <;> simp [hst]

theorem checkout_creates (cfg : Config) (db : DB) (emailForm : String)
    (cart : List Int) (pref : Except Unit MPPreference)
    (hmp : cfg.mp_enabled = true)
    (hat : hasAtSign (pyStripLower emailForm) = true)
    (hcart : cart ≠ [])
    (hsub : activeCartFichas db cart ≠ [])
    (hid : ∀ q ∈ db.pedidos, q.id ≠ db.nextPedidoId) :
    ∃ P : Pedido,
      P.id = db.nextPedidoId
      ∧ P.status = "pending"
      ∧ P.email = pyStripLower emailForm
      ∧ P.total_centavos
          = ((activeCartFichas db cart).map (fun f => f.preco_centavos)).sum
      ∧ (checkout cfg db emailForm cart pref).2.pedidos = db.pedidos ++ [P]
      ∧ (checkout cfg db emailForm cart pref).2.itens
          = db.itens ++ (activeCartFichas db cart).map (snapshotItem db.nextPedidoId) := by
  have hcart' : cart.isEmpty = false := by
    cases cart with
    | nil => exact absurd rfl hcart
    | cons a l => rfl
  have hsub' : (activeCartFichas db cart).isEmpty = false := by
    cases hac : activeCartFichas db cart with
    | nil => exact absurd hac hsub
    | cons a l => rfl
  simp only [checkout, hmp, hat, hcart', hsub', Bool.true_eq_false,
    Bool.false_eq_true, if_false]
  cases pref with
  | error e =>
    exact ⟨⟨db.nextPedidoId, pyStripLower emailForm, "pending",
      ((activeCartFichas db cart).map (fun f => f.preco_centavos)).sum, none, none⟩,
      rfl, rfl, rfl, rfl, rfl, rfl⟩
  | ok pr =>
    have hmapself : db.pedidos.map (fun p =>
        if p.id == db.nextPedidoId then { p with mp_preference_id := pr.id } else p)
          = db.pedidos := by
      refine map_eq_self_of (fun a ha => ?_)
      have : (a.id == db.nextPedidoId) = false := by
        simpa using hid a ha
      rw [this]
      rfl
    rcases htr : truthyStr pr.init_point with _ | u
    all_goals
      dsimp only
      rw [htr]
      dsimp only
      refine ⟨⟨db.nextPedidoId, pyStripLower emailForm, "pending",
        ((activeCartFichas db cart).map (fun f => f.preco_centavos)).sum,
        pr.id, none⟩, rfl, rfl, rfl, rfl, ?_, rfl⟩
      simp only [List.map_append, hmapself, List.map_cons, List.map_nil]
      simp

theorem checkout_rejects (cfg : Config) (db : DB) (emailForm : String)
    (cart : List Int) (pref : Except Unit MPPreference) :
    (cfg.mp_enabled = false →
      checkout cfg db emailForm cart pref = (.err 500, db))
    ∧ (cfg.mp_enabled = true → hasAtSign (pyStripLower emailForm) = false →
      checkout cfg db emailForm cart pref = (.redirect "cart", db))
    ∧ (cfg.mp_enabled = true → hasAtSign (pyStripLower emailForm) = true →
      cart = [] → checkout cfg db emailForm cart pref = (.redirect "busca", db))
    ∧ (cfg.mp_enabled = true → hasAtSign (pyStripLower emailForm) = true →
      activeCartFichas db cart = [] →
      checkout cfg db emailForm cart pref = (.redirect "busca", db)) := by
  refine ⟨?_, ?_, ?_, ?_⟩
  · intro h
    simp [checkout, h]
  · intro h1 h2
    simp [checkout, h1, h2]
  · intro h1 h2 h3
    subst h3
    simp [checkout, h1, h2]
  · intro h1 h2 h3
    by_cases hc : cart.isEmpty = true
    · simp [checkout, h1, h2, hc]
    · have hc' : cart.isEmpty = false := by simpa using hc
      simp [checkout, h1, h2, hc', h3]

/-! Claim theorems. -/

/-- Claim C8: token issuance is issue-or-reuse idempotent.  When the
current (latest-expiring) token for the (order, scope) pair is still valid
— unexpired and, for download scopes, under its use ceiling — the
get-or-create operation returns exactly that token and the store is
unchanged; a fresh zero-use token is minted and appended only when no
token exists yet or the current one has expired or exhausted its uses. -/
theorem c8_issue_or_reuse (cfg : Config) (now : Int) (db : DB) (pid fid : Int) :
    (∀ t, latestByKey (fun u => u.expira_em) (dtokensFor db pid fid) = some t →
        t.expira_em > now → t.downloads < t.max_downloads →
        get_or_create_download_token cfg now db pid fid = (t, db))
    ∧ (∀ t, latestByKey (fun u => u.expira_em) (dtokensFor db pid fid) = some t →
        ¬(t.expira_em > now ∧ t.downloads < t.max_downloads) →
        get_or_create_download_token cfg now db pid fid
          = mintDownloadToken cfg now db pid fid)
    ∧ (latestByKey (fun u => u.expira_em) (dtokensFor db pid fid) = none →
        get_or_create_download_token cfg now db pid fid
          = mintDownloadToken cfg now db pid fid)
    ∧ (∀ t, latestByKey (fun u => u.expira_em) (ptokensFor db pid) = some t →
        t.expira_em > now →
        get_or_create_pedido_access_token cfg now db pid = (t, db))
    ∧ ((mintDownloadToken cfg now db pid fid).1.downloads = 0
       ∧ (mintDownloadToken cfg now db pid fid).1.expira_em
           = now + cfg.download_token_days
       ∧ (mintDownloadToken cfg now db pid fid).2.dtokens
           = db.dtokens ++ [(mintDownloadToken cfg now db pid fid).1]) := by
  refine ⟨?_, ?_, ?_, ?_, rfl, rfl, rfl⟩
  · intro t h h1 h2
    simp [get_or_create_download_token, h, h1, h2]
  · intro t h hnv
    simp only [get_or_create_download_token, h]
    rw [if_neg hnv]
  · intro h
    simp only [get_or_create_download_token, h]
  · intro t h h1
    simp [get_or_create_pedido_access_token, h, h1]

theorem c8_witness :
    get_or_create_download_token cfgS 50 db8 7 1 = (tokE, db8)
    ∧ get_or_create_pedido_access_token cfgS 50 db8 7 = (ptok8, db8)
    ∧ get_or_create_download_token cfgS 101 db8 7 1 = mintDownloadToken cfgS 101 db8 7 1 :=
  ⟨(c8_issue_or_reuse cfgS 50 db8 7 1).1 tokE (by decide) (by decide) (by decide),
   (c8_issue_or_reuse cfgS 50 db8 7 1).2.2.2.1 ptok8 (by decide) (by decide),
   (c8_issue_or_reuse cfgS 101 db8 7 1).2.1 tokE (by decide) (by decide)⟩

/-- Claim C9: when object storage is not configured, redeeming a valid
download token still increments and commits the use counter before the
handler fails with HTTP 500: a use is consumed although no retrieval URL
is returned. -/
theorem c9_storage_unconfigured_consumes_use (cfg : Config) (now : Int)
    (db : DB) (s : String) (t : DownloadToken) (p : Pedido) (f : Ficha) (k : String)
    (hfind : findDToken db s = some t)
    (hexp : ¬ now > t.expira_em)
    (hcnt : t.downloads < t.max_downloads)
    (hped : findPedido db t.pedido_id = some p)
    (hpaid : p.status = "paid")
    (hfich : findFicha db t.ficha_id = some f)
    (hativa : f.ativa = true)
    (hkey : truthyStr f.file_key = some k)
    (hst : cfg.storage_enabled = false) :
    download cfg now db s = (.err 500, dl_write db t)
    ∧ findDToken (dl_write db t) s = some { t with downloads := t.downloads + 1 } := by
  have hc := dl_check_pass_eq now db t p f k hexp hcnt hped hpaid hfich hativa hkey
  have hd := download_eq_pass cfg now db s t k hfind hc
  rw [hst] at hd
  simp only [Bool.false_eq_true, if_false] at hd
  exact ⟨hd, findDToken_dl_write_self db s t hfind⟩

theorem c9_witness :
    download cfgNoStorage 100 dbE "t0" = (.err 500, dl_write dbE tokE)
    ∧ findDToken (dl_write dbE tokE) "t0"
        = some { tokE with downloads := tokE.downloads + 1 } :=
  c9_storage_unconfigured_consumes_use cfgNoStorage 100 dbE "t0" tokE pedidoPaid
    fichaA "fichas/a.pdf" (by decide) (by decide) (by decide) (by decide)
    (by decide) (by decide) (by decide) (by decide) (by decide)

/-- Claim C3 counterexample: the claim requires success only when
`now < expiry` (strict), but the code accepts redemption at the exact
expiry instant: with `now = expira_em = 100` and every other condition
satisfied, the redemption succeeds. -/
theorem c3_counterexample :
    findDToken dbE "t0" = some tokE
    ∧ ¬((100 : Int) < tokE.expira_em)
    ∧ respSuccess (download cfgS 100 dbE "t0").1 = true := by
  decide

/-- Claim C3 (amended): for a stored token whose owning order and catalog
item resolve and with storage configured, redemption succeeds iff
`now ≤ expiry` (the boundary instant is accepted; only strictly-past
expiry is rejected) and `use_counter < use_ceiling` and the owning order
is paid and the catalog item is active with an attached file.  In
particular a strictly-expired token is rejected regardless of use count
and a token at its ceiling is rejected regardless of expiry. -/
theorem c3_amended_redemption_iff (cfg : Config) (now : Int) (db : DB)
    (s : String) (t : DownloadToken) (p : Pedido) (f : Ficha)
    (hfind : findDToken db s = some t)
    (hped : findPedido db t.pedido_id = some p)
    (hfich : findFicha db t.ficha_id = some f)
    (hst : cfg.storage_enabled = true) :
    respSuccess (download cfg now db s).1 = true ↔
      (now ≤ t.expira_em ∧ t.downloads < t.max_downloads ∧ p.status = "paid"
       ∧ f.ativa = true ∧ truthyStr f.file_key ≠ none) := by
  constructor
  · intro hs
    by_cases hexp : now > t.expira_em
    case pos =>
      rw [download_eq_fail cfg now db s t _ hfind
        (dl_check_fail_expired now db t hexp)] at hs
      simp [respSuccess] at hs
    by_cases hcnt : t.downloads ≥ t.max_downloads
    case pos =>
      rw [download_eq_fail cfg now db s t _ hfind
        (dl_check_fail_exhausted now db t hexp hcnt)] at hs
      simp [respSuccess] at hs
    by_cases hpaid : p.status = "paid"
    case neg =>
      rw [download_eq_fail cfg now db s t _ hfind
        (dl_check_fail_unpaid now db t p hexp hcnt hped hpaid)] at hs
      simp [respSuccess] at hs
    by_cases hativa : f.ativa = true
    case neg =>
      have hf : f.ativa = false := by simpa using hativa
      rw [download_eq_fail cfg now db s t _ hfind
        (dl_check_fail_inactive now db t p f hexp hcnt hped hpaid hfich hf)] at hs
      simp [respSuccess] at hs
    rcases hkeyc : truthyStr f.file_key with _ | k
    · rw [download_eq_fail cfg now db s t _ hfind
        (dl_check_fail_nokey now db t p f hexp hcnt hped hpaid hfich hativa hkeyc)] at hs
      simp [respSuccess] at hs
    · exact ⟨by omega, by omega, hpaid, hativa, by simp [hkeyc]⟩
  · rintro ⟨h1, h2, h3, h4, h5⟩
    rcases hkc : truthyStr f.file_key with _ | k
    · exact absurd hkc h5
    · rw [download_eq_pass cfg now db s t k hfind
        (dl_check_pass_eq now db t p f k (by omega) h2 hped h3 hfich h4 hkc)]
      simp [hst, respSuccess]

theorem c3_witness :
    findDToken dbE "t0" = some tokE
    ∧ (respSuccess (download cfgS 100 dbE "t0").1 = true ↔
        ((100 : Int) ≤ tokE.expira_em ∧ tokE.downloads < tokE.max_downloads
         ∧ pedidoPaid.status = "paid" ∧ fichaA.ativa = true
         ∧ truthyStr fichaA.file_key ≠ none)) :=
  ⟨by decide,
   c3_amended_redemption_iff cfgS 100 dbE "t0" tokE pedidoPaid fichaA
     (by decide) (by decide) (by decide) (by decide)⟩

/-- Claim C2 is violated by the code: the ceiling check and the use-counter
increment are a separate read and a separate write, so two concurrent
redemptions of a token with ceiling 1 and counter 0, interleaved at the
commit boundary, both pass the check and both succeed — two successful
redemptions against a ceiling of 1 — and the final counter records only
one use (a lost update). -/
theorem c2_concurrent_redemptions_exceed_ceiling :
    (findDToken dbRace "r0").map (fun t => t.max_downloads) = some 1
    ∧ respSuccess (download_pair_racy cfgS 0 dbRace "r0").1 = true
    ∧ respSuccess (download_pair_racy cfgS 0 dbRace "r0").2.1 = true
    ∧ ((download_pair_racy cfgS 0 dbRace "r0").2.2.dtokens.map
        (fun t => t.downloads)) = [1] := by
  decide

/-- Claim C5: a checkout-created order's total in integer minor-currency
units equals the sum of its line items' snapshotted prices at creation
time, and neither the stored total nor the snapshot-derived total shown by
the purchase page is affected by any later change to catalog prices. -/
theorem c5_total_is_snapshot_sum (cfg : Config) (db : DB) (emailForm : String)
    (cart : List Int) (pref : Except Unit MPPreference)
    (hmp : cfg.mp_enabled = true)
    (hat : hasAtSign (pyStripLower emailForm) = true)
    (hcart : cart ≠ [])
    (hsub : activeCartFichas db cart ≠ [])
    (hid : ∀ q ∈ db.pedidos, q.id ≠ db.nextPedidoId) :
    ∃ P : Pedido,
      (checkout cfg db emailForm cart pref).2.pedidos = db.pedidos ++ [P]
      ∧ (checkout cfg db emailForm cart pref).2.itens
          = db.itens ++ (activeCartFichas db cart).map (snapshotItem P.id)
      ∧ P.total_centavos
          = (((activeCartFichas db cart).map (snapshotItem P.id)).map
              (fun it => it.preco_centavos_snapshot)).sum
      ∧ (∀ fid np,
          (updateFichaPreco (checkout cfg db emailForm cart pref).2 fid np).pedidos
            = (checkout cfg db emailForm cart pref).2.pedidos
          ∧ (updateFichaPreco (checkout cfg db emailForm cart pref).2 fid np).itens
            = (checkout cfg db emailForm cart pref).2.itens
          ∧ minha_compra_total
              (updateFichaPreco (checkout cfg db emailForm cart pref).2 fid np) P.id
            = minha_compra_total (checkout cfg db emailForm cart pref).2 P.id) := by
  obtain ⟨P, hidP, _, _, htot, hped, hit⟩ :=
    checkout_creates cfg db emailForm cart pref hmp hat hcart hsub hid
  refine ⟨P, hped, ?_, ?_, ?_⟩
  · rw [hit, hidP]
  · rw [htot, List.map_map]
    rfl
  · intro fid np
    exact ⟨rfl, rfl, rfl⟩

theorem c5_witness :
    ∃ P : Pedido,
      (checkout cfgS dbShop " a@B.c " [1, 2] prefOk).2.pedidos
        = dbShop.pedidos ++ [P]
      ∧ P.total_centavos = 6980 := by
  obtain ⟨P, hped, hit, htot, hrest⟩ :=
    c5_total_is_snapshot_sum cfgS dbShop " a@B.c " [1, 2] prefOk
      (by decide) (by decide) (by decide) (by decide) (by decide)
  refine ⟨P, hped, ?_⟩
  rw [htot, List.map_map]
  show ((activeCartFichas dbShop [1, 2]).map (fun f => f.preco_centavos)).sum = 6980
  decide

/-- Claim C10 counterexample: with the payment provider unconfigured,
checkout is rejected and no order is created even though the purchaser
address has an "@", the cart is nonempty and it resolves to an active
catalog item — a rejection cause the claim does not admit. -/
theorem c10_counterexample :
    checkout cfgNoMp dbShop " a@B.c " [1] prefOk = (.err 500, dbShop)
    ∧ hasAtSign (pyStripLower " a@B.c ") = true
    ∧ ([1] : List Int) ≠ []
    ∧ activeCartFichas dbShop [1] ≠ [] := by
  decide

/-- Claim C10 (amended): checkout silently excludes cart entries whose
catalog item is inactive or nonexistent — the created order's line items
and total cover exactly the currently-active resolvable subset of the cart
— and checkout is rejected with no order created exactly when the payment
provider is unconfigured, that subset is empty, the cart is empty, or the
purchaser address lacks an "@". -/
theorem c10_amended_checkout (cfg : Config) (db : DB) (emailForm : String)
    (cart : List Int) (pref : Except Unit MPPreference)
    (hid : ∀ q ∈ db.pedidos, q.id ≠ db.nextPedidoId) :
    ((checkout cfg db emailForm cart pref).2.pedidos = db.pedidos ↔
      (cfg.mp_enabled = false ∨ hasAtSign (pyStripLower emailForm) = false
       ∨ cart = [] ∨ activeCartFichas db cart = []))
    ∧ (cfg.mp_enabled = true → hasAtSign (pyStripLower emailForm) = true →
        cart ≠ [] → activeCartFichas db cart ≠ [] →
        ∃ P : Pedido,
          (checkout cfg db emailForm cart pref).2.pedidos = db.pedidos ++ [P]
          ∧ P.status = "pending"
          ∧ P.total_centavos
              = ((activeCartFichas db cart).map (fun f => f.preco_centavos)).sum
          ∧ (checkout cfg db emailForm cart pref).2.itens
              = db.itens ++ (activeCartFichas db cart).map (snapshotItem P.id)) := by
  constructor
  · constructor
    · intro hunch
      by_contra hnone
      push_neg at hnone
      obtain ⟨h1, h2, h3, h4⟩ := hnone
      have h1' : cfg.mp_enabled = true := by simpa using h1
      have h2' : hasAtSign (pyStripLower emailForm) = true := by simpa using h2
      obtain ⟨P, _, _, _, _, hped, _⟩ :=
        checkout_creates cfg db emailForm cart pref h1' h2' h3 h4 hid
      rw [hped] at hunch
      have hlen := congrArg List.length hunch
      simp at hlen
    · intro hcond
      by_cases hm : cfg.mp_enabled = false
      · rw [(checkout_rejects cfg db emailForm cart pref).1 hm]
      · have hm' : cfg.mp_enabled = true := by simpa using hm
        by_cases ha : hasAtSign (pyStripLower emailForm) = false
        · rw [(checkout_rejects cfg db emailForm cart pref).2.1 hm' ha]
        · have ha' : hasAtSign (pyStripLower emailForm) = true := by simpa using ha
          by_cases hc : cart = []
          · rw [(checkout_rejects cfg db emailForm cart pref).2.2.1 hm' ha' hc]
          · have hs : activeCartFichas db cart = [] := by
              rcases hcond with h | h | h | h
              · exact absurd h hm
              · exact absurd h ha
              · exact absurd h hc
              · exact h
            rw [(checkout_rejects cfg db emailForm cart pref).2.2.2 hm' ha' hs]
  · intro h1 h2 h3 h4
    obtain ⟨P, hidP, hstat, _, htot, hped, hit⟩ :=
      checkout_creates cfg db emailForm cart pref h1 h2 h3 h4 hid
    exact ⟨P, hped, hstat, htot, by rw [hit, hidP]⟩

theorem c10_witness :
    ∃ P : Pedido,
      (checkout cfgS dbShop " a@B.c " [1, 2] prefOk).2.pedidos
        = dbShop.pedidos ++ [P]
      ∧ P.status = "pending"
      ∧ P.total_centavos
          = ((activeCartFichas dbShop [1, 2]).map (fun f => f.preco_centavos)).sum
      ∧ (checkout cfgS dbShop " a@B.c " [1, 2] prefOk).2.itens
          = dbShop.itens ++ (activeCartFichas dbShop [1, 2]).map (snapshotItem P.id) :=
  (c10_amended_checkout cfgS dbShop " a@B.c " [1, 2] prefOk (by decide)).2
    (by decide) (by decide) (by decide) (by decide)

/-- Claim C4 is violated by the code: a well-formed webhook delivery whose
provider record carries a non-numeric `external_reference` makes
`int(external_reference)` raise an uncaught `ValueError`, so the webhook
path answers HTTP 500 (`Resp.crash`), not the claimed unconditional 200. -/
theorem c4_webhook_crash_on_nonnumeric_reference :
    mp_webhook cfgS 0 fetchRefAbc st1 notif1 = (.crash, st1)
    ∧ Resp.crash ≠ Resp.ok "ok" := by
  decide

theorem download_success_eq (cfg : Config) (now : Int) (db : DB) (s : String)
    (t : DownloadToken) (p : Pedido) (f : Ficha) (k : String)
    (hfind : findDToken db s = some t)
    (hexp : ¬ now > t.expira_em)
    (hcnt : t.downloads < t.max_downloads)
    (hped : findPedido db t.pedido_id = some p)
    (hpaid : p.status = "paid")
    (hfich : findFicha db t.ficha_id = some f)
    (hativa : f.ativa = true)
    (hkey : truthyStr f.file_key = some k)
    (hst : cfg.storage_enabled = true) :
    download cfg now db s = (.redirect (presigned_download_url k), dl_write db t) := by
  have hd := download_eq_pass cfg now db s t k hfind
    (dl_check_pass_eq now db t p f k hexp hcnt hped hpaid hfich hativa hkey)
  rw [hst] at hd
  simpa using hd

theorem downloadN_succ (cfg : Config) (now : Int) (s : String) (j : Nat) (db : DB) :
    downloadN cfg now s (j + 1) db
      = ((download cfg now db s).1
          :: (downloadN cfg now s j (download cfg now db s).2).1,
         (downloadN cfg now s j (download cfg now db s).2).2) := rfl

theorem downloadN_run (cfg : Config) (now : Int) (s : String) (p : Pedido)
    (f : Ficha) (k : String)
    (hpaid : p.status = "paid") (hativa : f.ativa = true)
    (hkey : truthyStr f.file_key = some k) (hst : cfg.storage_enabled = true) :
    ∀ (j : Nat) (db : DB) (t : DownloadToken),
      findDToken db s = some t →
      ¬ now > t.expira_em →
      findPedido db t.pedido_id = some p →
      findFicha db t.ficha_id = some f →
      t.downloads + j = t.max_downloads →
      ∃ db' t', downloadN cfg now s (j + 1) db
          = (List.replicate j (Resp.redirect (presigned_download_url k))
              ++ [Resp.err 429], db')
        ∧ findDToken db' s = some t'
        ∧ t'.downloads = t.max_downloads
        ∧ t'.max_downloads = t.max_downloads := by
  intro j
  induction j with
  | zero =>
    intro db t hfind hexp hped hfich hj
    have hfail : download cfg now db s = (.err 429, db) :=
      download_eq_fail cfg now db s t _ hfind
        (dl_check_fail_exhausted now db t hexp (by omega))
    refine ⟨db, t, ?_, hfind, by omega, rfl⟩
    simp [downloadN, hfail]
  | succ j ih =>
    intro db t hfind hexp hped hfich hj
    have hcnt : t.downloads < t.max_downloads := by omega
    have hsucc : download cfg now db s
        = (.redirect (presigned_download_url k), dl_write db t) :=
      download_success_eq cfg now db s t p f k hfind hexp hcnt hped hpaid
        hfich hativa hkey hst
    have hfind1 : findDToken (dl_write db t) s
        = some { t with downloads := t.downloads + 1 } :=
      findDToken_dl_write_self db s t hfind
    obtain ⟨db', t', hrun, hf', hd', hm'⟩ :=
      ih (dl_write db t) { t with downloads := t.downloads + 1 } hfind1 hexp
        hped hfich (show t.downloads + 1 + j = t.max_downloads by omega)
    refine ⟨db', t', ?_, hf', by simpa using hd', by simpa using hm'⟩
    rw [downloadN_succ, hsucc]
    dsimp only
    rw [hrun]
    simp [List.replicate_succ]

/-- Claim C7: redeeming an unknown token string fails with 404; and for a
fresh valid download token with ceiling C on a paid order whose catalog
item is active with an attached file (and storage configured), C + 1
sequential redemptions yield exactly C successes — each returning the
signed retrieval URL after incrementing the use counter — followed by the
exhaustion error 429 on attempt C + 1, the counter having reached C. -/
theorem c7_unknown_token_and_exhaustion (cfg : Config) (now : Int) (db : DB)
    (s : String) (t : DownloadToken) (p : Pedido) (f : Ficha) (k : String)
    (hfind : findDToken db s = some t)
    (h0 : t.downloads = 0)
    (hexp : ¬ now > t.expira_em)
    (hped : findPedido db t.pedido_id = some p)
    (hpaid : p.status = "paid")
    (hfich : findFicha db t.ficha_id = some f)
    (hativa : f.ativa = true)
    (hkey : truthyStr f.file_key = some k)
    (hst : cfg.storage_enabled = true) :
    (∀ (db2 : DB) (s2 : String), findDToken db2 s2 = none →
        download cfg now db2 s2 = (.err 404, db2))
    ∧ ∃ db' t', downloadN cfg now s (t.max_downloads + 1) db
        = (List.replicate t.max_downloads
            (Resp.redirect (presigned_download_url k)) ++ [Resp.err 429], db')
      ∧ findDToken db' s = some t'
      ∧ t'.downloads = t.max_downloads := by
  constructor
  · intro db2 s2 h
    exact download_eq_none cfg now db2 s2 h
  · obtain ⟨db', t', hrun, hf', hd', _⟩ :=
      downloadN_run cfg now s p f k hpaid hativa hkey hst t.max_downloads db t
        hfind hexp hped hfich (by omega)
    exact ⟨db', t', hrun, hf', hd'⟩

theorem c7_witness :
    download cfgS 100 dbE "zz" = (.err 404, dbE)
    ∧ ∃ db' t', downloadN cfgS 100 "t0" (tokE.max_downloads + 1) dbE
        = (List.replicate tokE.max_downloads
            (Resp.redirect (presigned_download_url "fichas/a.pdf"))
            ++ [Resp.err 429], db')
      ∧ findDToken db' "t0" = some t'
      ∧ t'.downloads = tokE.max_downloads := by
  obtain ⟨h404, hrest⟩ :=
    c7_unknown_token_and_exhaustion cfgS 100 dbE "t0" tokE pedidoPaid fichaA
      "fichas/a.pdf" (by decide) (by decide) (by decide) (by decide)
      (by decide) (by decide) (by decide) (by decide) (by decide)
  exact ⟨h404 dbE "zz" (by decide), hrest⟩

theorem webhook_transition (cfg : Config) (now : Int)
    (fetch : String → Except Unit MPPayment) (st : Sys) (n : Notification)
    (payid ext : String) (pay : MPPayment) (oid : Int) (p : Pedido)
    (hx : extract_payment_id n = some payid)
    (hf : fetch payid = .ok pay)
    (he : truthyStr pay.external_reference = some ext)
    (hi : parseIntStr ext = some oid)
    (hp : findPedido st.db oid = some p)
    (hnp : ¬ p.status = "paid")
    (hs : pay.status = some "approved") :
    mp_webhook cfg now fetch st n
      = (.ok "ok",
         ⟨(gerar_links_e_enviar_email cfg now (setPaid st.db oid payid) oid).1,
          st.fulfillCalls + 1,
          st.emailsSent
            + (gerar_links_e_enviar_email cfg now (setPaid st.db oid payid) oid).2⟩) := by
  simp only [mp_webhook, hx, hf, he, hi, hp]
  rw [if_neg hnp, if_pos hs]

theorem webhook_noop (cfg : Config) (now : Int)
    (fetch : String → Except Unit MPPayment) (st : Sys) (n : Notification)
    (payid ext : String) (pay : MPPayment) (oid : Int) (p : Pedido)
    (hx : extract_payment_id n = some payid)
    (hf : fetch payid = .ok pay)
    (he : truthyStr pay.external_reference = some ext)
    (hi : parseIntStr ext = some oid)
    (hp : findPedido st.db oid = some p)
    (hpaid : p.status = "paid") :
    mp_webhook cfg now fetch st n = (.ok "ok", st) := by
  simp only [mp_webhook, hx, hf, he, hi, hp]
  rw [if_pos hpaid]

theorem webhookState_cases (cfg : Config) (now : Int)
    (fetch : String → Except Unit MPPayment) (n : Notification) (st : Sys) :
    webhookState cfg now fetch n st = st
    ∨ ∃ oid payid q, findPedido st.db oid = some q ∧ ¬ q.status = "paid"
        ∧ (webhookState cfg now fetch n st).db.pedidos
            = (setPaid st.db oid payid).pedidos
        ∧ (webhookState cfg now fetch n st).fulfillCalls = st.fulfillCalls + 1 := by
  unfold webhookState mp_webhook
  cases hx : extract_payment_id n with
  | none => exact Or.inl rfl
  | some payid =>
    dsimp only
    cases hf : fetch payid with
    | error e => exact Or.inl rfl
    | ok pay =>
      dsimp only
      cases he : truthyStr pay.external_reference with
      | none => exact Or.inl rfl
      | some ext =>
        dsimp only
        cases hi : parseIntStr ext with
        | none => exact Or.inl rfl
        | some oid =>
          dsimp only
          cases hp : findPedido st.db oid with
          | none => exact Or.inl rfl
          | some q =>
            dsimp only
            by_cases hq : q.status = "paid"
            · rw [if_pos hq]
              exact Or.inl rfl
            · rw [if_neg hq]
              by_cases hs : pay.status = some "approved"
              · rw [if_pos hs]
                exact Or.inr ⟨oid, payid, q, hp, hq,
                  gerar_pedidos cfg now (setPaid st.db oid payid) oid, rfl⟩
              · rw [if_neg hs]
                exact Or.inl rfl

/-- Claim C6: order status is monotonic forward-only under every modelled
operation: the webhook never moves a pending order anywhere but to paid,
never changes a paid order at all (and reapplying the paid transition is a
no-op answered with a plain 200 acknowledgment, no error), and neither the
download handler nor the fulfillment dispatcher ever touches order rows. -/
theorem c6_status_monotonic (cfg : Config) (now : Int)
    (fetch : String → Except Unit MPPayment) (n : Notification) (st : Sys) :
    (∀ oid p, findPedido st.db oid = some p →
      ∃ p', findPedido (webhookState cfg now fetch n st).db oid = some p'
        ∧ (p.status = "paid" → p' = p)
        ∧ (p.status = "pending" → p'.status = "pending" ∨ p'.status = "paid"))
    ∧ (∀ payid pay ext oid q, extract_payment_id n = some payid →
        fetch payid = .ok pay → truthyStr pay.external_reference = some ext →
        parseIntStr ext = some oid → findPedido st.db oid = some q →
        q.status = "paid" → mp_webhook cfg now fetch st n = (.ok "ok", st))
    ∧ (∀ db s, ((download cfg now db s).2).pedidos = db.pedidos)
    ∧ (∀ db pid,
        ((gerar_links_e_enviar_email cfg now db pid).1).pedidos = db.pedidos) := by
  refine ⟨?_, ?_, ?_, fun db pid => gerar_pedidos cfg now db pid⟩
  · intro oid p hp
    rcases webhookState_cases cfg now fetch n st with heq |
      ⟨oid2, payid, q, hq, hqnp, hped, _⟩
    · rw [heq]
      exact ⟨p, hp, fun _ => rfl, fun hpend => Or.inl hpend⟩
    · have hlook : findPedido (webhookState cfg now fetch n st).db oid
          = findPedido (setPaid st.db oid2 payid) oid := by
        unfold findPedido
        rw [hped]
      refine ⟨if (p.id == oid2) = true
          then { p with status := "paid", mp_payment_id := some payid } else p,
        ?_, ?_, ?_⟩
      · rw [hlook, findPedido_setPaid, hp]
        rfl
      · intro hpaid
        by_cases hc : (p.id == oid2) = true
        · have hpo : (p.id == oid) = true := by
            simpa using List.find?_some
              (show st.db.pedidos.find? (fun r => r.id == oid) = some p from hp)
          have h1 : p.id = oid := by simpa using hpo
          have h2 : p.id = oid2 := by simpa using hc
          rw [h1] at h2
          subst h2
          rw [hp] at hq
          have hqq : q = p := by
            exact (Option.some.injEq _ _ ▸ hq).symm
          rw [hqq] at hqnp
          exact absurd hpaid hqnp
        · simp [hc]
      · intro hpend
        by_cases hc : (p.id == oid2) = true
        · right
          simp [hc]
        · left
          simp [hc, hpend]
  · intro payid pay ext oid q hx hf he hi hq hqp
    exact webhook_noop cfg now fetch st n payid ext pay oid q hx hf he hi hq hqp
  · intro db s
    cases hl : dl_load db s with
    | none => rw [download_eq_none cfg now db s hl]
    | some t =>
      cases hc : dl_check now db t with
      | fail r => rw [download_eq_fail cfg now db s t r hl hc]
      | pass k =>
        rw [download_eq_pass cfg now db s t k hl hc]
        rfl

theorem c6_witness :
    (∃ p', findPedido (webhookState cfgS 0 fetchApproved7 notif1 st1).db 7 = some p'
        ∧ (pedidoPend.status = "paid" → p' = pedidoPend)
        ∧ (pedidoPend.status = "pending" →
            p'.status = "pending" ∨ p'.status = "paid"))
    ∧ mp_webhook cfgS 0 fetchApproved7 stE notif1 = (.ok "ok", stE) :=
  ⟨(c6_status_monotonic cfgS 0 fetchApproved7 notif1 st1).1 7 pedidoPend (by decide),
   (c6_status_monotonic cfgS 0 fetchApproved7 notif1 stE).2.1 "pay1"
     ⟨some "approved", some "7"⟩ "7" 7 pedidoPaid rfl rfl (by decide) (by decide)
     (by decide) (by decide)⟩

/-- Claim C1: for a sequence of N identical "approved" webhook deliveries
for the same payment id against an order that starts pending, the order
transitions to paid exactly once, the fulfillment dispatcher (order-access
and download token minting plus the notification email) is invoked exactly
once, and every delivery after the first finds the order already paid and
leaves the whole state unchanged. -/
theorem c1_duplicate_webhooks_fulfill_once (cfg : Config) (now : Int)
    (fetch : String → Except Unit MPPayment) (n : Notification) (st : Sys)
    (payid ext : String) (pay : MPPayment) (oid : Int) (p : Pedido)
    (hx : extract_payment_id n = some payid)
    (hf : fetch payid = .ok pay)
    (hs : pay.status = some "approved")
    (he : truthyStr pay.external_reference = some ext)
    (hi : parseIntStr ext = some oid)
    (hp : findPedido st.db oid = some p)
    (hpend : p.status = "pending")
    (N : Nat) (hN : 1 ≤ N) :
    (∃ p', findPedido (webhookState cfg now fetch n st).db oid = some p'
        ∧ p'.status = "paid")
    ∧ (webhookState cfg now fetch n st).fulfillCalls = st.fulfillCalls + 1
    ∧ (webhookState cfg now fetch n)^[N] st = webhookState cfg now fetch n st := by
  have hnp : ¬ p.status = "paid" := by
    rw [hpend]
    decide
  have htrans := webhook_transition cfg now fetch st n payid ext pay oid p
    hx hf he hi hp hnp hs
  have hws : webhookState cfg now fetch n st
      = ⟨(gerar_links_e_enviar_email cfg now (setPaid st.db oid payid) oid).1,
         st.fulfillCalls + 1,
         st.emailsSent
           + (gerar_links_e_enviar_email cfg now (setPaid st.db oid payid) oid).2⟩ := by
    unfold webhookState
    rw [htrans]
  have hpedidos : (webhookState cfg now fetch n st).db.pedidos
      = (setPaid st.db oid payid).pedidos := by
    rw [hws]
    exact gerar_pedidos _ _ _ _
  have hbeq : (p.id == oid) = true := by
    simpa using List.find?_some
      (show st.db.pedidos.find? (fun r => r.id == oid) = some p from hp)
  have hp' : findPedido (webhookState cfg now fetch n st).db oid
      = some { p with status := "paid", mp_payment_id := some payid } := by
    have hstep : findPedido (webhookState cfg now fetch n st).db oid
        = findPedido (setPaid st.db oid payid) oid := by
      unfold findPedido
      rw [hpedidos]
    rw [hstep, findPedido_setPaid, hp]
    have hpid : p.id = oid := by simpa using hbeq
    simp [hpid]
  have hfix : webhookState cfg now fetch n (webhookState cfg now fetch n st)
      = webhookState cfg now fetch n st := by
    have hno := webhook_noop cfg now fetch (webhookState cfg now fetch n st) n
      payid ext pay oid _ hx hf he hi hp' rfl
    show (mp_webhook cfg now fetch (webhookState cfg now fetch n st) n).2
        = webhookState cfg now fetch n st
    rw [hno]
  refine ⟨⟨_, hp', rfl⟩, ?_, ?_⟩
  · rw [hws]
  · obtain ⟨m, rfl⟩ : ∃ m, N = m + 1 := ⟨N - 1, (Nat.succ_pred_eq_of_pos hN).symm⟩
    rw [Function.iterate_succ_apply]
    exact Function.iterate_fixed hfix m

theorem c1_witness :
    (∃ p', findPedido (webhookState cfgS 0 fetchApproved7 notif1 st1).db 7 = some p'
        ∧ p'.status = "paid")
    ∧ (webhookState cfgS 0 fetchApproved7 notif1 st1).fulfillCalls
        = st1.fulfillCalls + 1
    ∧ (webhookState cfgS 0 fetchApproved7 notif1)^[3] st1
        = webhookState cfgS 0 fetchApproved7 notif1 st1 :=
  c1_duplicate_webhooks_fulfill_once cfgS 0 fetchApproved7 notif1 st1 "pay1" "7"
    ⟨some "approved", some "7"⟩ 7 pedidoPend rfl rfl rfl (by decide) (by decide)
    (by decide) (by decide) 3 (by decide)

end FM
